import Mathlib

/-
Verification of the optional-value / structure-descriptor contract of
tensorflow/python/data (tf.data.Optional, OptionalSpec and the structure
utilities), as specified in spec.md and exercised by
tensorflow/python/data/kernel_tests/optional_test.py.

The repository excerpt contains only the test client of the optional
container; the container itself (optional_ops / structure) is modelled
here from the specification's data model (spec.md sections 3 and 4).
-/

/-- Modelled from the spec: the element kind of a leaf slot
(spec.md section 3, `Leaf{elementKind, shape}`); `variant` is the opaque
encoded-unit kind used for the single slot of an OptionalDescriptor. -/
inductive ElementKind where
  | float32
  | float64
  | int32
  | int64
  | stringKind
  | variant
deriving DecidableEq

/-- Modelled from the spec: the three failure kinds of section 7,
never conflated. -/
inductive Err where
  | NO_VALUE
  | NOT_READY
  | SHAPE_MISMATCH
deriving DecidableEq

/-- Modelled from the spec: the error condition under which a failure kind
is surfaced (NO_VALUE as an invalid-argument condition, NOT_READY as a
failed-precondition condition). -/
inductive ErrorCondition where
  | invalidArgument
  | failedPrecondition
deriving DecidableEq

/-- Modelled from the spec: the surfacing map from failure kind to error
condition (spec.md sections 4.3 and 7). SHAPE_MISMATCH is a
caller/programming error, surfaced as invalid-argument. -/
def Err.condition : Err → ErrorCondition
  | .NO_VALUE => .invalidArgument
  | .NOT_READY => .failedPrecondition
  | .SHAPE_MISMATCH => .invalidArgument

/-- Modelled from the spec: StructureDescriptor (spec.md section 3), a
closed tagged variant Leaf / Sequence / Mapping / Optional. A dimension is
`Option Nat`: `none` is an unknown/flexible dimension that matches
anything in the compatibility relation. -/
inductive StructureDescriptor where
  | leaf (kind : ElementKind) (shape : List (Option Nat))
  | sequence (children : List StructureDescriptor)
  | mapping (entries : List (String × StructureDescriptor))
  | optional (inner : StructureDescriptor)

/-- Modelled from the spec: StructuredValue (spec.md section 3), an
opaque possibly-nested aggregate of primitive leaves (plain arrays or
sparse-encoded index/value/shape triples); an OptionalValue may itself be
a payload inside a StructuredValue (spec.md section 4.3, nesting), carried
as its descriptor's inner together with its decoded slot. -/
inductive StructuredValue where
  | leaf (kind : ElementKind) (shape : List Nat) (data : List Int)
  | sparse (kind : ElementKind) (indices : List (List Int)) (values : List Int)
      (denseShape : List Nat)
  | sequence (children : List StructuredValue)
  | mapping (entries : List (String × StructuredValue))
  | optionalValue (inner : StructureDescriptor) (slot : Option StructuredValue)

/-- Modelled from the spec: OptionalValue (spec.md section 3), owning a
single encoded slot that decodes to absent or to a StructuredValue
matching `inner`, plus its OptionalDescriptor's inner descriptor. -/
structure OptionalValue where
  inner : StructureDescriptor
  slot : Option StructuredValue

/-- Modelled from the spec: embedding of an OptionalValue as the leaf
payload of an enclosing StructuredValue (spec.md section 4.3, nesting). -/
def OptionalValue.toValue (o : OptionalValue) : StructuredValue :=
  .optionalValue o.inner o.slot

mutual

/-- Modelled from the spec: `fromValue(v) -> StructureDescriptor`
(spec.md section 4.1): infers the descriptor by recursively inspecting
the value's runtime shape and kind. -/
def descriptorOfValue : StructuredValue → StructureDescriptor
  | .leaf k shape _ => .leaf k (shape.map some)
  | .sparse k _ _ denseShape => .leaf k (denseShape.map some)
  | .sequence cs => .sequence (descriptorOfList cs)
  | .mapping es => .mapping (descriptorOfEntries es)
  | .optionalValue inner _ => .optional inner

/-- Descriptor inference over the children of a Sequence. -/
def descriptorOfList : List StructuredValue → List StructureDescriptor
  | [] => []
  | c :: cs => descriptorOfValue c :: descriptorOfList cs

/-- Descriptor inference over the entries of a Mapping. -/
def descriptorOfEntries :
    List (String × StructuredValue) → List (String × StructureDescriptor)
  | [] => []
  | (k, v) :: es => (k, descriptorOfValue v) :: descriptorOfEntries es

end

/-- Modelled from the spec: `OptionalValue.fromValue(v)` (spec.md section
4.3): present, descriptor inferred from v. -/
def OptionalValue.fromValue (v : StructuredValue) : OptionalValue :=
  ⟨descriptorOfValue v, some v⟩

/-- Modelled from the spec: `OptionalValue.empty(innerDescriptor)`
(spec.md section 4.3): absent, descriptor supplied explicitly. -/
def OptionalValue.empty (d : StructureDescriptor) : OptionalValue :=
  ⟨d, none⟩

/-- Modelled from the spec: `hasValue()` (spec.md section 4.3): decodes
the presence tag from the internal slot. -/
def OptionalValue.hasValue (o : OptionalValue) : Bool :=
  o.slot.isSome

/-- Modelled from the spec: `getValue()` (spec.md section 4.3): returns
the wrapped value if present, fails with NO_VALUE if absent. -/
def OptionalValue.getValue (o : OptionalValue) : Except Err StructuredValue :=
  match o.slot with
  | some v => .ok v
  | none => .error .NO_VALUE

/-- Modelled from the spec: dimension compatibility (spec.md section 4.1):
unknown/flexible dimensions match anything, known dimensions must agree. -/
def dimCompatible : Option Nat → Option Nat → Bool
  | none, _ => true
  | _, none => true
  | some m, some n => decide (m = n)

/-- Shape compatibility: same rank and pointwise dimension compatibility. -/
def shapeCompatible : List (Option Nat) → List (Option Nat) → Bool
  | [], [] => true
  | d1 :: t1, d2 :: t2 => dimCompatible d1 d2 && shapeCompatible t1 t2
  | _, _ => false

mutual

/-- Modelled from the spec: `isCompatibleWith(other)` (spec.md sections
4.1 and 4.2): true iff same variant and, for Leaf, same element kind with
compatible shapes; for Sequence/Mapping, same arity/keys and all children
pairwise compatible; for Optional, compatible inner descriptors. An
OptionalDescriptor is never compatible with a non-optional descriptor. -/
def StructureDescriptor.isCompatibleWith :
    StructureDescriptor → StructureDescriptor → Bool
  | .leaf k1 s1, .leaf k2 s2 => decide (k1 = k2) && shapeCompatible s1 s2
  | .sequence a, .sequence b => descListCompatible a b
  | .mapping a, .mapping b => descEntriesCompatible a b
  | .optional a, .optional b => a.isCompatibleWith b
  | _, _ => false

/-- Pairwise compatibility of Sequence children. -/
def descListCompatible :
    List StructureDescriptor → List StructureDescriptor → Bool
  | [], [] => true
  | a :: t1, b :: t2 => a.isCompatibleWith b && descListCompatible t1 t2
  | _, _ => false

/-- Pairwise compatibility of Mapping entries: same keys in the same
order, children pairwise compatible. -/
def descEntriesCompatible :
    List (String × StructureDescriptor) → List (String × StructureDescriptor) → Bool
  | [], [] => true
  | (k1, a) :: t1, (k2, b) :: t2 =>
      decide (k1 = k2) && a.isCompatibleWith b && descEntriesCompatible t1 t2
  | _, _ => false

end

/-- Whether a descriptor is an OptionalDescriptor. -/
def StructureDescriptor.isOptionalDescriptor : StructureDescriptor → Bool
  | .optional _ => true
  | _ => false

/-- Modelled from the spec: the encoded unit (spec.md section 3), the
opaque slot type used when flattening across a boundary: either a
primitive tensor slot or the presence-tagged variant slot of an
OptionalValue (tag plus at most one payload value). -/
inductive EncodedUnit where
  | tensorUnit (kind : ElementKind) (shape : List Nat) (data : List Int)
  | variantUnit (tag : Bool) (payload : List StructuredValue)

/-- Modelled from the spec: the single internal encoded slot of an
OptionalValue (spec.md section 3): it encodes "present" plus the wrapped
value packed into one opaque unit, or "absent" with no payload. -/
def OptionalValue.encodedSlot (o : OptionalValue) : EncodedUnit :=
  match o.slot with
  | some v => .variantUnit true [v]
  | none => .variantUnit false []

/-- Modelled from the spec: OptionalDescriptor's `flatten(optionalValue)`
(spec.md section 4.2): emits the optionalValue's single internal encoded
slot unchanged. -/
def optionalFlatten (o : OptionalValue) : List EncodedUnit :=
  [o.encodedSlot]

/-- Modelled from the spec: OptionalDescriptor's `unflatten([slot])`
(spec.md section 4.2): reconstructs an OptionalValue from the single
slot, tagged with this descriptor's inner; fails with SHAPE_MISMATCH if
the slot count or kind does not match what the descriptor expects. -/
def optionalUnflatten (inner : StructureDescriptor) :
    List EncodedUnit → Except Err OptionalValue
  | [.variantUnit true [v]] => .ok ⟨inner, some v⟩
  | [.variantUnit false []] => .ok ⟨inner, none⟩
  | _ => .error .SHAPE_MISMATCH

/-- Modelled from the spec: decoding the presence tag out of an encoded
slot (spec.md section 4.3, `hasValue()`); only a non-variant slot, which
no OptionalValue ever produces, would be malformed. -/
def decodeHasValue : EncodedUnit → Except Err Bool
  | .variantUnit tag _ => .ok tag
  | .tensorUnit _ _ _ => .error .SHAPE_MISMATCH

mutual

/-- Modelled from the spec: the element kinds of a descriptor's flattened
encoded-unit sequence (spec.md sections 3 and 4.2): depth-first over the
structure; an OptionalDescriptor contributes exactly one slot of the
opaque variant kind regardless of its inner descriptor. -/
def flatTensorKinds : StructureDescriptor → List ElementKind
  | .leaf k _ => [k]
  | .sequence ds => flatTensorKindsList ds
  | .mapping es => flatTensorKindsEntries es
  | .optional _ => [.variant]

/-- Flattened element kinds of Sequence children. -/
def flatTensorKindsList : List StructureDescriptor → List ElementKind
  | [] => []
  | d :: t => flatTensorKinds d ++ flatTensorKindsList t

/-- Flattened element kinds of Mapping entries. -/
def flatTensorKindsEntries : List (String × StructureDescriptor) → List ElementKind
  | [] => []
  | (_, d) :: t => flatTensorKinds d ++ flatTensorKindsEntries t

end

mutual

/-- Modelled from the spec: the shapes of a descriptor's flattened
encoded-unit sequence; an OptionalDescriptor contributes one slot of
scalar shape (spec.md section 4.2). -/
def flatTensorShapes : StructureDescriptor → List (List (Option Nat))
  | .leaf _ s => [s]
  | .sequence ds => flatTensorShapesList ds
  | .mapping es => flatTensorShapesEntries es
  | .optional _ => [[]]

/-- Flattened shapes of Sequence children. -/
def flatTensorShapesList : List StructureDescriptor → List (List (Option Nat))
  | [] => []
  | d :: t => flatTensorShapes d ++ flatTensorShapesList t

/-- Flattened shapes of Mapping entries. -/
def flatTensorShapesEntries :
    List (String × StructureDescriptor) → List (List (Option Nat))
  | [] => []
  | (_, d) :: t => flatTensorShapes d ++ flatTensorShapesEntries t

end

/-- Modelled from the spec: the encoded-unit arity of a descriptor: how
many slots its flattened form occupies (spec.md section 4.2). -/
def encodedArity (d : StructureDescriptor) : Nat :=
  (flatTensorKinds d).length

/-- Pointwise sum of two equal-length leaf data arrays. -/
def addData : List Int → List Int → List Int
  | x :: xs, y :: ys => (x + y) :: addData xs ys
  | _, _ => []

mutual

/-- Modelled from the spec: leaf-wise numeric addition of two
StructuredValues of compatible structure (spec.md section 4.4,
`pairwiseAdd`): recurses through aggregates and into nested
OptionalValues (absent+absent stays absent, present+present adds the
wrapped values); any structural disagreement, including a mismatched
presence pairing, fails with SHAPE_MISMATCH. -/
def pairwiseAddValue :
    StructuredValue → StructuredValue → Except Err StructuredValue
  | .leaf k1 s1 d1, .leaf k2 s2 d2 =>
      if decide (k1 = k2) && decide (s1 = s2) && decide (d1.length = d2.length) then
        .ok (.leaf k1 s1 (addData d1 d2))
      else .error .SHAPE_MISMATCH
  | .sparse k1 i1 v1 ds1, .sparse k2 i2 v2 ds2 =>
      if decide (k1 = k2) && decide (i1 = i2) && decide (ds1 = ds2)
          && decide (v1.length = v2.length) then
        .ok (.sparse k1 i1 (addData v1 v2) ds1)
      else .error .SHAPE_MISMATCH
  | .sequence a, .sequence b =>
      match pairwiseAddList a b with
      | .ok cs => .ok (.sequence cs)
      | .error e => .error e
  | .mapping a, .mapping b =>
      match pairwiseAddEntries a b with
      | .ok es => .ok (.mapping es)
      | .error e => .error e
  | .optionalValue i1 (some x), .optionalValue _ (some y) =>
      match pairwiseAddValue x y with
      | .ok z => .ok (.optionalValue i1 (some z))
      | .error e => .error e
  | .optionalValue i1 none, .optionalValue _ none => .ok (.optionalValue i1 none)
  | _, _ => .error .SHAPE_MISMATCH

/-- Leaf-wise addition of Sequence children. -/
def pairwiseAddList :
    List StructuredValue → List StructuredValue → Except Err (List StructuredValue)
  | [], [] => .ok []
  | x :: xs, y :: ys =>
      match pairwiseAddValue x y with
      | .ok z =>
          match pairwiseAddList xs ys with
          | .ok zs => .ok (z :: zs)
          | .error e => .error e
      | .error e => .error e
  | _, _ => .error .SHAPE_MISMATCH

/-- Leaf-wise addition of Mapping entries (keys must agree). -/
def pairwiseAddEntries :
    List (String × StructuredValue) → List (String × StructuredValue) →
      Except Err (List (String × StructuredValue))
  | [], [] => .ok []
  | (k1, x) :: xs, (k2, y) :: ys =>
      if decide (k1 = k2) then
        match pairwiseAddValue x y with
        | .ok z =>
            match pairwiseAddEntries xs ys with
            | .ok zs => .ok ((k1, z) :: zs)
            | .error e => .error e
        | .error e => .error e
      else .error .SHAPE_MISMATCH
  | _, _ => .error .SHAPE_MISMATCH

end

/-- Modelled from the spec: `pairwiseAdd(x, y)` on OptionalValues
(spec.md section 4.4): requires the two descriptors to be compatible;
absent plus absent is absent, present plus present is present with
leaf-wise numeric addition of the wrapped values; an incompatible pair or
a mismatched presence pairing is a caller error reported synchronously. -/
def OptionalValue.pairwiseAdd (x y : OptionalValue) : Except Err OptionalValue :=
  if (StructureDescriptor.optional x.inner).isCompatibleWith
      (StructureDescriptor.optional y.inner) then
    match x.slot, y.slot with
    | some a, some b =>
        match pairwiseAddValue a b with
        | .ok s => .ok ⟨x.inner, some s⟩
        | .error e => .error e
    | none, none => .ok ⟨x.inner, none⟩
    | _, _ => .error .SHAPE_MISMATCH
  else .error .SHAPE_MISMATCH

/-- Replacement of every element of a leaf data array by the additive
identity. -/
def zeroData : List Int → List Int
  | [] => []
  | _ :: t => 0 :: zeroData t

mutual

/-- Modelled from the spec: `zeroFill` on a StructuredValue (spec.md
section 4.4): every leaf numeric slot replaced by its additive identity,
recursing through aggregates and into nested present OptionalValues; an
absent nested OptionalValue stays absent. -/
def zeroFillValue : StructuredValue → StructuredValue
  | .leaf k s d => .leaf k s (zeroData d)
  | .sparse k idx vals ds => .sparse k idx (zeroData vals) ds
  | .sequence cs => .sequence (zeroFillList cs)
  | .mapping es => .mapping (zeroFillEntries es)
  | .optionalValue i (some v) => .optionalValue i (some (zeroFillValue v))
  | .optionalValue i none => .optionalValue i none

/-- Zero-fill of Sequence children. -/
def zeroFillList : List StructuredValue → List StructuredValue
  | [] => []
  | c :: cs => zeroFillValue c :: zeroFillList cs

/-- Zero-fill of Mapping entries. -/
def zeroFillEntries :
    List (String × StructuredValue) → List (String × StructuredValue)
  | [] => []
  | (k, v) :: es => (k, zeroFillValue v) :: zeroFillEntries es

end

/-- Modelled from the spec: `zeroFill(x)` on an OptionalValue (spec.md
section 4.4): same descriptor as x; an absent OptionalValue stays absent
(zero-fill does not manufacture presence); a present one has its wrapped
value zero-filled recursively. -/
def OptionalValue.zeroFill (o : OptionalValue) : OptionalValue :=
  match o.slot with
  | some v => ⟨o.inner, some (zeroFillValue v)⟩
  | none => ⟨o.inner, none⟩

/-- Whether every element of a leaf data array is zero. -/
def allZeroData : List Int → Bool
  | [] => true
  | x :: t => decide (x = 0) && allZeroData t

mutual

/-- Whether every numeric leaf of a StructuredValue holds only additive
identities, recursing into nested present OptionalValues. -/
def allLeavesZero : StructuredValue → Bool
  | .leaf _ _ d => allZeroData d
  | .sparse _ _ vals _ => allZeroData vals
  | .sequence cs => allLeavesZeroList cs
  | .mapping es => allLeavesZeroEntries es
  | .optionalValue _ (some v) => allLeavesZero v
  | .optionalValue _ none => true

/-- allLeavesZero over Sequence children. -/
def allLeavesZeroList : List StructuredValue → Bool
  | [] => true
  | c :: cs => allLeavesZero c && allLeavesZeroList cs

/-- allLeavesZero over Mapping entries. -/
def allLeavesZeroEntries : List (String × StructuredValue) → Bool
  | [] => true
  | (_, v) :: es => allLeavesZero v && allLeavesZeroEntries es

end

/-- Modelled from the spec: the upstream iterator resource that produces
an OptionalValue (spec.md sections 5 and 7, and the
get-next-as-optional scenario of section 8): it is either not yet
initialized, or initialized with a list of remaining elements; the
concrete iterator machinery is outside this core and is surfaced to it
purely as the NOT_READY failure mode on evaluation. -/
structure IteratorResource where
  initialized : Bool
  remaining : List StructuredValue

/-- Modelled from the spec: evaluating `hasValue()` of the optional
produced by get-next-as-optional (spec.md section 8 scenario): fails
with NOT_READY before the resource initializes; afterwards it reports
whether an element remains, with false once the resource is exhausted. -/
def evalNextHasValue (it : IteratorResource) : Except Err Bool :=
  if it.initialized then
    match it.remaining with
    | [] => .ok false
    | _ :: _ => .ok true
  else .error .NOT_READY

/-- Modelled from the spec: evaluating `getValue()` of the optional
produced by get-next-as-optional (spec.md section 8 scenario): fails
with NOT_READY before the resource initializes; afterwards it returns
the next element, or fails with NO_VALUE once the resource is
exhausted. -/
def evalNextGetValue (it : IteratorResource) : Except Err StructuredValue :=
  if it.initialized then
    match it.remaining with
    | [] => .error .NO_VALUE
    | v :: _ => .ok v
  else .error .NOT_READY

/-- Concrete nested operand mirroring testNestedAddN: a pair of a scalar
and a present nested OptionalValue wrapping a two-element vector. -/
def addNExampleA : StructuredValue :=
  .sequence [.leaf .float32 [] [5],
    .optionalValue (.leaf .float32 [some 2]) (some (.leaf .float32 [2] [1, 2]))]

/-- Second concrete nested operand mirroring testNestedAddN. -/
def addNExampleB : StructuredValue :=
  .sequence [.leaf .float32 [] [6],
    .optionalValue (.leaf .float32 [some 2]) (some (.leaf .float32 [2] [3, 4]))]

/-- Expected leaf-wise sum of the two nested operands. -/
def addNExampleSum : StructuredValue :=
  .sequence [.leaf .float32 [] [11],
    .optionalValue (.leaf .float32 [some 2]) (some (.leaf .float32 [2] [4, 6]))]

/-- Concrete nested present OptionalValue mirroring testNestedZerosLike:
an optional wrapping an optional wrapping a nonzero scalar. -/
def nestedZeroExample : OptionalValue :=
  ⟨.optional (.leaf .float32 []),
   some (.optionalValue (.leaf .float32 []) (some (.leaf .float32 [] [1])))⟩

theorem dimCompatible_refl (d : Option Nat) : dimCompatible d d = true := by
  cases d <;> simp [dimCompatible]

theorem shapeCompatible_refl (s : List (Option Nat)) : shapeCompatible s s = true := by
  induction s with
  | nil => rfl
  | cons d t ih => simp [shapeCompatible, dimCompatible_refl, ih]

mutual

theorem isCompatibleWith_refl : ∀ d : StructureDescriptor, d.isCompatibleWith d = true
  | .leaf k s => by simp [StructureDescriptor.isCompatibleWith, shapeCompatible_refl]
  | .sequence ds => by
      simp [StructureDescriptor.isCompatibleWith, descListCompatible_refl ds]
  | .mapping es => by
      simp [StructureDescriptor.isCompatibleWith, descEntriesCompatible_refl es]
  | .optional i => by
      simp [StructureDescriptor.isCompatibleWith, isCompatibleWith_refl i]

theorem descListCompatible_refl : ∀ ds : List StructureDescriptor,
    descListCompatible ds ds = true
  | [] => rfl
  | d :: t => by simp [descListCompatible, isCompatibleWith_refl d, descListCompatible_refl t]

theorem descEntriesCompatible_refl : ∀ es : List (String × StructureDescriptor),
    descEntriesCompatible es es = true
  | [] => rfl
  | (k, d) :: t => by
      simp [descEntriesCompatible, isCompatibleWith_refl d, descEntriesCompatible_refl t]

end

theorem dimCompatible_symm (a b : Option Nat) : dimCompatible a b = dimCompatible b a := by
  cases a <;> cases b <;> simp [dimCompatible, eq_comm]

theorem shapeCompatible_symm (a b : List (Option Nat)) :
    shapeCompatible a b = shapeCompatible b a := by
  induction a generalizing b with
  | nil => cases b <;> rfl
  | cons d t ih =>
      cases b with
      | nil => rfl
      | cons d2 t2 => simp only [shapeCompatible]; rw [dimCompatible_symm, ih]

mutual

theorem isCompatibleWith_symm : ∀ a b : StructureDescriptor,
    a.isCompatibleWith b = b.isCompatibleWith a
  | .leaf k1 s1, .leaf k2 s2 => by
      simp only [StructureDescriptor.isCompatibleWith]
      rw [decide_eq_decide.mpr eq_comm, shapeCompatible_symm]
  | .leaf _ _, .sequence _ => rfl
  | .leaf _ _, .mapping _ => rfl
  | .leaf _ _, .optional _ => rfl
  | .sequence _, .leaf _ _ => rfl
  | .sequence a, .sequence b => descListCompatible_symm a b
  | .sequence _, .mapping _ => rfl
  | .sequence _, .optional _ => rfl
  | .mapping _, .leaf _ _ => rfl
  | .mapping _, .sequence _ => rfl
  | .mapping a, .mapping b => descEntriesCompatible_symm a b
  | .mapping _, .optional _ => rfl
  | .optional _, .leaf _ _ => rfl
  | .optional _, .sequence _ => rfl
  | .optional _, .mapping _ => rfl
  | .optional a, .optional b => isCompatibleWith_symm a b

theorem descListCompatible_symm : ∀ a b : List StructureDescriptor,
    descListCompatible a b = descListCompatible b a
  | [], [] => rfl
  | [], _ :: _ => rfl
  | _ :: _, [] => rfl
  | x :: xs, y :: ys => by
      simp only [descListCompatible]
      rw [isCompatibleWith_symm x y, descListCompatible_symm xs ys]

theorem descEntriesCompatible_symm : ∀ a b : List (String × StructureDescriptor),
    descEntriesCompatible a b = descEntriesCompatible b a
  | [], [] => rfl
  | [], _ :: _ => rfl
  | _ :: _, [] => rfl
  | (k1, x) :: xs, (k2, y) :: ys => by
      simp only [descEntriesCompatible]
      rw [isCompatibleWith_symm x y, descEntriesCompatible_symm xs ys,
        decide_eq_decide.mpr eq_comm]

end

theorem allZeroData_zeroData (d : List Int) : allZeroData (zeroData d) = true := by
  induction d with
  | nil => rfl
  | cons x t ih => simp [zeroData, allZeroData, ih]

mutual

theorem allLeavesZero_zeroFillValue : ∀ v : StructuredValue,
    allLeavesZero (zeroFillValue v) = true
  | .leaf k s d => by simp [zeroFillValue, allLeavesZero, allZeroData_zeroData]
  | .sparse k idx vals ds => by simp [zeroFillValue, allLeavesZero, allZeroData_zeroData]
  | .sequence cs => by simp [zeroFillValue, allLeavesZero, allLeavesZero_zeroFillList cs]
  | .mapping es => by simp [zeroFillValue, allLeavesZero, allLeavesZero_zeroFillEntries es]
  | .optionalValue i (some v) => by
      simp [zeroFillValue, allLeavesZero, allLeavesZero_zeroFillValue v]
  | .optionalValue i none => rfl

theorem allLeavesZero_zeroFillList : ∀ cs : List StructuredValue,
    allLeavesZeroList (zeroFillList cs) = true
  | [] => rfl
  | c :: cs => by
      simp [zeroFillList, allLeavesZeroList, allLeavesZero_zeroFillValue c,
        allLeavesZero_zeroFillList cs]

theorem allLeavesZero_zeroFillEntries : ∀ es : List (String × StructuredValue),
    allLeavesZeroEntries (zeroFillEntries es) = true
  | [] => rfl
  | (k, v) :: es => by
      simp [zeroFillEntries, allLeavesZeroEntries, allLeavesZero_zeroFillValue v,
        allLeavesZero_zeroFillEntries es]

end

theorem zeroData_length (d : List Int) : (zeroData d).length = d.length := by
  induction d with
  | nil => rfl
  | cons x t ih => simp [zeroData, ih]

mutual

theorem descriptorOf_zeroFillValue : ∀ v : StructuredValue,
    descriptorOfValue (zeroFillValue v) = descriptorOfValue v
  | .leaf k s d => rfl
  | .sparse k idx vals ds => rfl
  | .sequence cs => by
      simp [zeroFillValue, descriptorOfValue, descriptorOf_zeroFillList cs]
  | .mapping es => by
      simp [zeroFillValue, descriptorOfValue, descriptorOf_zeroFillEntries es]
  | .optionalValue i (some v) => rfl
  | .optionalValue i none => rfl

theorem descriptorOf_zeroFillList : ∀ cs : List StructuredValue,
    descriptorOfList (zeroFillList cs) = descriptorOfList cs
  | [] => rfl
  | c :: cs => by
      simp [zeroFillList, descriptorOfList, descriptorOf_zeroFillValue c,
        descriptorOf_zeroFillList cs]

theorem descriptorOf_zeroFillEntries : ∀ es : List (String × StructuredValue),
    descriptorOfEntries (zeroFillEntries es) = descriptorOfEntries es
  | [] => rfl
  | (k, v) :: es => by
      simp [zeroFillEntries, descriptorOfEntries, descriptorOf_zeroFillValue v,
        descriptorOf_zeroFillEntries es]

end

/-- Claim C1: for every StructuredValue v (nested aggregates and
sparse-encoded leaves included), OptionalValue.fromValue(v) has a value,
and getValue() returns a value structurally equal to v. In this
embedding descriptor inference (descriptorOfValue) is total, so the
"descriptor can be inferred" proviso holds for every v. -/
theorem fromValue_hasValue_getValue (v : StructuredValue) :
    (OptionalValue.fromValue v).hasValue = true ∧
    (OptionalValue.fromValue v).getValue = .ok v :=
  ⟨rfl, rfl⟩

/-- Claim C2: for every descriptor d, OptionalValue.empty(d) has no
value, and getValue() on it fails with NO_VALUE, which is surfaced as
the invalid-argument error condition. -/
theorem empty_hasValue_getValue_no_value (d : StructureDescriptor) :
    (OptionalValue.empty d).hasValue = false ∧
    (OptionalValue.empty d).getValue = .error .NO_VALUE ∧
    Err.condition .NO_VALUE = .invalidArgument :=
  ⟨rfl, rfl, rfl⟩

/-- Claim C3: for every OptionalValue o (present or absent, nested
optionals included), unflattening the result of flattening o through its
OptionalDescriptor yields o back: same presence state and, if present, a
structurally equal wrapped value. -/
theorem optional_flatten_unflatten_roundtrip (o : OptionalValue) :
    optionalUnflatten o.inner (optionalFlatten o) = .ok o := by
  cases o with
  | mk inner slot => cases slot <;> rfl

/-- Claim C4: every OptionalDescriptor flattens to exactly one encoded
unit, of the opaque variant kind and scalar shape, regardless of how
complex the inner descriptor is. -/
theorem optionalDescriptor_arity_one (inner : StructureDescriptor) :
    encodedArity (.optional inner) = 1 ∧
    flatTensorKinds (.optional inner) = [.variant] ∧
    flatTensorShapes (.optional inner) = [[]] :=
  ⟨rfl, rfl, rfl⟩

/-- Claim C5: an OptionalDescriptor is never compatible with a
non-optional descriptor, even one equal to its own inner descriptor;
compatibility with another OptionalDescriptor reduces exactly to
compatibility of the inner descriptors. -/
theorem optionalDescriptor_never_compatible_with_nonoptional
    (inner d : StructureDescriptor) :
    (d.isOptionalDescriptor = false →
      (StructureDescriptor.optional inner).isCompatibleWith d = false) ∧
    (∀ j : StructureDescriptor,
      (StructureDescriptor.optional inner).isCompatibleWith (.optional j) =
        inner.isCompatibleWith j) := by
  constructor
  · intro h
    cases d with
    | leaf k s => rfl
    | sequence ds => rfl
    | mapping es => rfl
    | optional i => simp [StructureDescriptor.isOptionalDescriptor] at h
  · intro j
    rfl

/-- Witness for C5 at a concrete input: the OptionalDescriptor over a
scalar float leaf is not compatible with that very leaf descriptor. -/
theorem optionalDescriptor_never_compatible_with_nonoptional_witness :
    (StructureDescriptor.leaf .float32 []).isOptionalDescriptor = false ∧
    (StructureDescriptor.optional (.leaf .float32 [])).isCompatibleWith
      (.leaf .float32 []) = false :=
  ⟨rfl,
   (optionalDescriptor_never_compatible_with_nonoptional
      (.leaf .float32 []) (.leaf .float32 [])).1 rfl⟩

/-- Claim C6: pairwiseAdd over OptionalValues with compatible
descriptors: present plus present is present with the leaf-wise numeric
sum of the wrapped values (nested OptionalValues included, via
pairwiseAddValue's recursion), and absent plus absent is absent. -/
theorem optional_pairwiseAdd_presence :
    (∀ a b s : StructuredValue,
      (descriptorOfValue a).isCompatibleWith (descriptorOfValue b) = true →
      pairwiseAddValue a b = .ok s →
      (OptionalValue.fromValue a).pairwiseAdd (OptionalValue.fromValue b) =
        .ok ⟨descriptorOfValue a, some s⟩ ∧
      (OptionalValue.mk (descriptorOfValue a) (some s)).hasValue = true ∧
      (OptionalValue.mk (descriptorOfValue a) (some s)).getValue = .ok s) ∧
    (∀ d : StructureDescriptor,
      (OptionalValue.empty d).pairwiseAdd (OptionalValue.empty d) =
        .ok (OptionalValue.empty d) ∧
      (OptionalValue.empty d).hasValue = false) := by
  constructor
  · intro a b s hc hadd
    refine ⟨?_, rfl, rfl⟩
    simp [OptionalValue.pairwiseAdd, OptionalValue.fromValue,
      StructureDescriptor.isCompatibleWith, hc, hadd]
  · intro d
    refine ⟨?_, rfl⟩
    simp [OptionalValue.pairwiseAdd, OptionalValue.empty,
      StructureDescriptor.isCompatibleWith, isCompatibleWith_refl d]

/-- Witness for C6 at the concrete nested operands of testNestedAddN:
adding two present optionals wrapping (scalar, nested optional of a
vector) yields the present leaf-wise sum. -/
theorem optional_pairwiseAdd_presence_witness :
    (OptionalValue.fromValue addNExampleA).pairwiseAdd
      (OptionalValue.fromValue addNExampleB) =
        .ok ⟨descriptorOfValue addNExampleA, some addNExampleSum⟩ ∧
    (OptionalValue.mk (descriptorOfValue addNExampleA) (some addNExampleSum)).hasValue
      = true ∧
    (OptionalValue.mk (descriptorOfValue addNExampleA) (some addNExampleSum)).getValue
      = .ok addNExampleSum :=
  optional_pairwiseAdd_presence.1 addNExampleA addNExampleB addNExampleSum rfl rfl

/-- Claim C7: zeroFill keeps the descriptor and the presence state of an
OptionalValue: an absent optional stays absent, and a present optional
becomes present over the zero-filled wrapped value, whose numeric leaves
are all at the additive identity and whose inferred descriptor is
unchanged (the recursion descends into nested OptionalValues). -/
theorem optional_zeroFill_presence_and_zeros (o : OptionalValue) :
    o.zeroFill.inner = o.inner ∧
    o.zeroFill.hasValue = o.hasValue ∧
    (o.slot = none → o.zeroFill = OptionalValue.empty o.inner) ∧
    (∀ v, o.slot = some v →
      o.zeroFill.getValue = .ok (zeroFillValue v) ∧
      allLeavesZero (zeroFillValue v) = true ∧
      descriptorOfValue (zeroFillValue v) = descriptorOfValue v) := by
  cases o with
  | mk inner slot =>
      cases slot with
      | none =>
          exact ⟨rfl, rfl, fun _ => rfl, fun v h => by simp at h⟩
      | some w =>
          refine ⟨rfl, rfl, fun h => by simp at h, fun v h => ?_⟩
          have h2 : w = v := by simpa using h
          subst h2
          exact ⟨rfl, allLeavesZero_zeroFillValue w, descriptorOf_zeroFillValue w⟩

/-- Witness for C7 at the concrete nested optional of
testNestedZerosLike: zero-filling the present optional-of-optional-of-1.0
yields a present value whose leaves are all zero and whose descriptor is
unchanged. -/
theorem optional_zeroFill_presence_and_zeros_witness :
    nestedZeroExample.zeroFill.getValue =
      .ok (zeroFillValue
        (.optionalValue (.leaf .float32 []) (some (.leaf .float32 [] [1])))) ∧
    allLeavesZero (zeroFillValue
      (.optionalValue (.leaf .float32 []) (some (.leaf .float32 [] [1])))) = true ∧
    descriptorOfValue (zeroFillValue
        (.optionalValue (.leaf .float32 []) (some (.leaf .float32 [] [1])))) =
      descriptorOfValue
        (.optionalValue (.leaf .float32 []) (some (.leaf .float32 [] [1]))) :=
  (optional_zeroFill_presence_and_zeros nestedZeroExample).2.2.2
    (.optionalValue (.leaf .float32 []) (some (.leaf .float32 [] [1]))) rfl

/-- Claim C8: before the producing resource initializes, evaluating
either hasValue() or getValue() fails with NOT_READY, surfaced as the
failed-precondition condition; once initialized and exhausted,
hasValue() is false and getValue() fails with NO_VALUE, surfaced as the
invalid-argument condition — two distinct failure kinds. -/
theorem iterator_notReady_vs_noValue (it : IteratorResource) :
    (it.initialized = false →
      evalNextHasValue it = .error .NOT_READY ∧
      evalNextGetValue it = .error .NOT_READY ∧
      Err.condition .NOT_READY = .failedPrecondition) ∧
    (it.initialized = true → it.remaining = [] →
      evalNextHasValue it = .ok false ∧
      evalNextGetValue it = .error .NO_VALUE ∧
      Err.condition .NO_VALUE = .invalidArgument) := by
  constructor
  · intro h
    refine ⟨?_, ?_, rfl⟩ <;> simp [evalNextHasValue, evalNextGetValue, h]
  · intro h1 h2
    refine ⟨?_, ?_, rfl⟩ <;> simp [evalNextHasValue, evalNextGetValue, h1, h2]

/-- Witness for C8 at concrete resources: an uninitialized resource
fails both evaluations with NOT_READY; an initialized, exhausted one
reports no value and fails getValue with NO_VALUE. -/
theorem iterator_notReady_vs_noValue_witness :
    (evalNextHasValue ⟨false, []⟩ = .error .NOT_READY ∧
     evalNextGetValue ⟨false, []⟩ = .error .NOT_READY ∧
     Err.condition .NOT_READY = .failedPrecondition) ∧
    (evalNextHasValue ⟨true, []⟩ = .ok false ∧
     evalNextGetValue ⟨true, []⟩ = .error .NO_VALUE ∧
     Err.condition .NO_VALUE = .invalidArgument) :=
  ⟨(iterator_notReady_vs_noValue ⟨false, []⟩).1 rfl,
   (iterator_notReady_vs_noValue ⟨true, []⟩).2 rfl rfl⟩

/-- Claim C9: for every materialized OptionalValue, decoding the
presence tag out of its single encoded slot always succeeds with the
boolean presence tag — it never reaches any error branch. -/
theorem hasValue_never_fails (o : OptionalValue) :
    decodeHasValue o.encodedSlot = .ok o.hasValue := by
  cases o with
  | mk inner slot => cases slot <;> rfl

/-- Claim C10: descriptor compatibility is reflexive and symmetric for
every StructureDescriptor, optional-of-optional descriptors included. -/
theorem isCompatibleWith_refl_and_symm :
    (∀ d : StructureDescriptor, d.isCompatibleWith d = true) ∧
    (∀ a b : StructureDescriptor,
      a.isCompatibleWith b = b.isCompatibleWith a) :=
  ⟨isCompatibleWith_refl, isCompatibleWith_symm⟩
